import Mathlib

/-!
Shallow embedding of `moderngl_window/context/pyqt5/window.py`: the PyQt5
window adapter class `Window(BaseWindow)`.  Each Qt-facing handler
(`resize`, `key_pressed_event`, `key_release_event`, `mouse_press_event`,
`mouse_release_event`, `mouse_wheel_event`, `close_event`) is embedded as a
pure function from the adapter state and the incoming toolkit event to the
new adapter state together with the ordered list of generic callbacks it
invokes.  Parts of `BaseWindow` (not part of the reviewed file) that the
handlers delegate to are modelled from the specification and marked as such.
-/

namespace Qt5Win

/-- Qt constant `QtCore.Qt.Key_Escape` (`self.keys.ESCAPE`). -/
def ESCAPE : Nat := 0x01000000

/-- Qt constant `QtCore.Qt.ShiftModifier` (bit 25 of the modifier bitmask). -/
def ShiftModifier : Nat := 0x02000000

/-- Qt constant `QtCore.Qt.ControlModifier` (bit 26 of the modifier bitmask). -/
def ControlModifier : Nat := 0x04000000

/-- Modelled from the spec: the press/release action tags
(`keys.ACTION_PRESS` / `keys.ACTION_RELEASE` from the keys module, which is
not part of the reviewed file).  They are opaque tags passed to the generic
key-event callback. -/
inductive KeyAction where
  | press
  | release
deriving DecidableEq, Repr

/-- The modifier-state holder `self._modifiers`.  The Python code assigns
`mods & QtCore.Qt.ShiftModifier` (an `int`) to the `shift` field and likewise
for `ctrl`, so the fields hold the raw masked integers; Python truthiness of
such a field is "value is nonzero". -/
structure KeyModifiers where
  shift : Nat
  ctrl : Nat
deriving DecidableEq, Repr

/-- One invocation of a generic callback slot of the owning framework
(`key_event_func`, `mouse_press_event_func`, ..., `BaseWindow.close`,
`set_default_viewport`, `BaseWindow.resize`).  Handler embeddings return the
ordered list of such invocations. -/
inductive Callback where
  | key_event (key : Nat) (action : KeyAction) (mods : KeyModifiers)
  | mouse_press (x y : Int) (button : Nat)
  | mouse_release (x y : Int) (button : Nat)
  | mouse_scroll (dx dy : Rat)
  | mouse_move (x y : Int)
  | resize_notify (w h : Nat)
  | set_viewport
  | close_window
deriving DecidableEq, Repr

/-- The adapter's mutable state: logical size `_width`/`_height`, raw
framebuffer size `_buffer_width`/`_buffer_height`, the display pixel-density
ratio `widget.devicePixelRatio()` (a positive integer in Qt, held constant
across one event), whether a rendering context `self._ctx` exists, the
modifier holder `self._modifiers`, the held-key map `self._key_pressed_map`,
the held-button map mutated by `_handle_mouse_button_state_change`, the frame
counter `self._frames`, and the close-requested flag set by
`BaseWindow.close`. -/
structure WinState where
  width : Nat
  height : Nat
  buffer_width : Nat
  buffer_height : Nat
  dpr : Nat
  ctx : Bool
  modifiers : KeyModifiers
  key_pressed_map : Nat → Bool
  mouse_states : Nat → Bool
  frames : Nat
  close_requested : Bool

/-- A Qt key event: `event.key()` and `event.modifiers()`. -/
structure KeyEvent where
  key : Nat
  modifiers : Nat
deriving DecidableEq, Repr

/-- A Qt mouse button event: `event.x()`, `event.y()`, `event.button()`. -/
structure MouseEvent where
  x : Int
  y : Int
  button : Nat
deriving DecidableEq, Repr

/-- A Qt wheel event's `event.angleDelta()` point, in eighths of a degree. -/
structure WheelEvent where
  dx : Int
  dy : Int
deriving DecidableEq, Repr

/-- A Qt close event; its payload is carried only to show it is ignored. -/
structure CloseEvent where
  payload : Nat
deriving DecidableEq, Repr

/-- `Window._mouse_button_map = {1: 1, 2: 2, 4: 3}` with dict `.get`
semantics: `none` for any key not in the table. -/
def _mouse_button_map (code : Nat) : Option Nat :=
  if code = 1 then some 1
  else if code = 2 then some 2
  else if code = 4 then some 3
  else none

/-- Modelled from the spec: `BaseWindow.close` (not part of the reviewed
file) requests window close with no confirmation and no veto hook; the
held-state maps and sizes are untouched. -/
def close (st : WinState) : WinState × List Callback :=
  ({ st with close_requested := true }, [Callback.close_window])

/-- Modelled from the spec: `BaseWindow._handle_mouse_button_state_change`
(not part of the reviewed file) records the given button id as held or not
held in the held-button map. -/
def _handle_mouse_button_state_change (st : WinState) (button : Nat)
    (pressed : Bool) : WinState :=
  { st with mouse_states := fun b => if b = button then pressed else st.mouse_states b }

/-- `Window._handle_modifiers`: overwrite both modifier fields with the
masked bits of the event's modifier bitmask. -/
def _handle_modifiers (st : WinState) (mods : Nat) : WinState :=
  { st with modifiers := ⟨mods &&& ShiftModifier, mods &&& ControlModifier⟩ }

/-- `Window.resize`: store logical size (floor division of the raw pixel
size by the pixel-density ratio) and the raw buffer size, reapply the
viewport only when a context exists, then forward the raw buffer size to the
generic resize notification `super().resize(...)`. -/
def resize (st : WinState) (width height : Nat) : WinState × List Callback :=
  let st1 : WinState :=
    { st with
      width := width / st.dpr
      height := height / st.dpr
      buffer_width := width
      buffer_height := height }
  let viewport : List Callback := if st1.ctx then [Callback.set_viewport] else []
  (st1, viewport ++ [Callback.resize_notify st1.buffer_width st1.buffer_height])

/-- `Window.key_pressed_event`: on escape, call `self.close()` first; then
update modifiers, record the key as held, and invoke the generic key-event
callback with the press action and the updated modifier holder. -/
def key_pressed_event (st : WinState) (e : KeyEvent) : WinState × List Callback :=
  let closed : WinState × List Callback :=
    if e.key = ESCAPE then close st else (st, [])
  let st1 := _handle_modifiers closed.1 e.modifiers
  let st2 : WinState :=
    { st1 with key_pressed_map := fun k => if k = e.key then true else st1.key_pressed_map k }
  (st2, closed.2 ++ [Callback.key_event e.key KeyAction.press st2.modifiers])

/-- `Window.key_release_event`: update modifiers, record the key as not
held, and invoke the generic key-event callback with the release action. -/
def key_release_event (st : WinState) (e : KeyEvent) : WinState × List Callback :=
  let st1 := _handle_modifiers st e.modifiers
  let st2 : WinState :=
    { st1 with key_pressed_map := fun k => if k = e.key then false else st1.key_pressed_map k }
  (st2, [Callback.key_event e.key KeyAction.release st2.modifiers])

/-- `Window.mouse_move_event`: forward raw coordinates unmodified. -/
def mouse_move_event (st : WinState) (e : MouseEvent) : WinState × List Callback :=
  (st, [Callback.mouse_move e.x e.y])

/-- `Window.mouse_press_event`: translate the native button code through
`_mouse_button_map`; on `None` return with no mutation and no callback;
otherwise record the button as held and invoke the generic press callback. -/
def mouse_press_event (st : WinState) (e : MouseEvent) : WinState × List Callback :=
  match _mouse_button_map e.button with
  | none => (st, [])
  | some button =>
    let st1 := _handle_mouse_button_state_change st button true
    (st1, [Callback.mouse_press e.x e.y button])

/-- `Window.mouse_release_event`: same translation; on `None` return with no
mutation and no callback; otherwise record the button as not held and invoke
the generic release callback. -/
def mouse_release_event (st : WinState) (e : MouseEvent) : WinState × List Callback :=
  match _mouse_button_map e.button with
  | none => (st, [])
  | some button =>
    let st1 := _handle_mouse_button_state_change st button false
    (st1, [Callback.mouse_release e.x e.y button])

/-- `Window.mouse_wheel_event`: forward `angleDelta` divided by `120.0` on
both axes to the scroll callback, with no rounding (exact division modelled
over the rationals). -/
def mouse_wheel_event (st : WinState) (e : WheelEvent) : WinState × List Callback :=
  (st, [Callback.mouse_scroll ((e.dx : Rat) / 120) ((e.dy : Rat) / 120)])

/-- `Window.close_event`: the toolkit-originated close request calls
`self.close()`; the event instance is never inspected. -/
def close_event (st : WinState) (_e : CloseEvent) : WinState × List Callback :=
  close st

/-- A concrete adapter state used to instantiate theorems on inputs. -/
def initState : WinState where
  width := 960
  height := 540
  buffer_width := 1920
  buffer_height := 1080
  dpr := 2
  ctx := true
  modifiers := ⟨0, 0⟩
  key_pressed_map := fun _ => false
  mouse_states := fun _ => false
  frames := 0
  close_requested := false

/-- A concrete adapter state with no rendering context yet. -/
def noCtxState : WinState :=
  { initState with ctx := false }

/-- The masked bit `m &&& 2 ^ i` is nonzero exactly when bit `i` of `m` is
set. -/
theorem and_mask_ne_zero_iff (m i : Nat) : m &&& 2 ^ i ≠ 0 ↔ m.testBit i := by
  rw [Nat.and_two_pow]
  cases h : m.testBit i <;> simp

/-- C1: for every mouse press or release event, toolkit button codes 1, 2, 4
map to generic button ids 1, 2, 3 respectively, the held-state for that id is
updated before the single generic press/release callback fires with that id;
any other code is unmapped and produces no callback at all. -/
theorem c1_mouse_button_mapping (st : WinState) (x y : Int) :
    _mouse_button_map 1 = some 1 ∧ _mouse_button_map 2 = some 2 ∧
    _mouse_button_map 4 = some 3 ∧
    (∀ code, code ≠ 1 → code ≠ 2 → code ≠ 4 → _mouse_button_map code = none) ∧
    (∀ code button, _mouse_button_map code = some button →
      (mouse_press_event st ⟨x, y, code⟩).2 = [Callback.mouse_press x y button] ∧
      (mouse_press_event st ⟨x, y, code⟩).1.mouse_states button = true ∧
      (mouse_release_event st ⟨x, y, code⟩).2 = [Callback.mouse_release x y button] ∧
      (mouse_release_event st ⟨x, y, code⟩).1.mouse_states button = false) ∧
    (∀ code, _mouse_button_map code = none →
      (mouse_press_event st ⟨x, y, code⟩).2 = [] ∧
      (mouse_release_event st ⟨x, y, code⟩).2 = []) := by
  refine ⟨rfl, rfl, rfl, ?_, ?_, ?_⟩
  · intro code h1 h2 h4
    simp [_mouse_button_map, h1, h2, h4]
  · intro code button h
    simp only [mouse_press_event, mouse_release_event, h,
      _handle_mouse_button_state_change]
    simp
  · intro code h
    simp [mouse_press_event, mouse_release_event, h]

/-- C1 witness: button code 1 at a concrete state maps to id 1 with the
held-state set, and code 3 is unmapped with an empty callback trace. -/
theorem c1_mouse_button_mapping_witness :
    _mouse_button_map 1 = some 1 ∧
    (mouse_press_event initState ⟨7, 9, 1⟩).2 = [Callback.mouse_press 7 9 1] ∧
    (mouse_press_event initState ⟨7, 9, 1⟩).1.mouse_states 1 = true ∧
    _mouse_button_map 3 = none ∧
    (mouse_press_event initState ⟨7, 9, 3⟩).2 = [] ∧
    (mouse_release_event initState ⟨7, 9, 3⟩).2 = [] := by
  have h := c1_mouse_button_mapping initState 7 9
  exact ⟨h.1, (h.2.2.2.2.1 1 1 rfl).1, (h.2.2.2.2.1 1 1 rfl).2.1, rfl,
    (h.2.2.2.2.2 3 rfl).1, (h.2.2.2.2.2 3 rfl).2⟩

/-- C2: every wheel event forwards exactly the native angle delta divided by
120 on both axes to the scroll callback; native delta (240, -120) yields
(2, -1), and a non-multiple-of-120 delta such as 30 yields the exact
fraction 1/4, preserved unrounded. -/
theorem c2_wheel_delta (st : WinState) (e : WheelEvent) :
    mouse_wheel_event st e =
      (st, [Callback.mouse_scroll ((e.dx : Rat) / 120) ((e.dy : Rat) / 120)]) ∧
    (mouse_wheel_event st ⟨240, -120⟩).2 = [Callback.mouse_scroll 2 (-1)] ∧
    (mouse_wheel_event st ⟨30, 0⟩).2 = [Callback.mouse_scroll (1 / 4 : Rat) 0] := by
  refine ⟨rfl, ?_, ?_⟩ <;> simp [mouse_wheel_event] <;> norm_num

/-- C3: resize stores the logical size (raw size floor-divided by the
pixel-density ratio) and the raw buffer size, and the generic resize
notification receives the raw size, not the logical one; with raw size
(1920, 1080) and ratio 2 the stored logical size is (960, 540), the buffer
size (1920, 1080), and the notification receives (1920, 1080). -/
theorem c3_resize_sizes (st : WinState) (w h : Nat) :
    (resize st w h).1.width = w / st.dpr ∧
    (resize st w h).1.height = h / st.dpr ∧
    (resize st w h).1.buffer_width = w ∧
    (resize st w h).1.buffer_height = h ∧
    (resize st w h).2 =
      (if st.ctx then [Callback.set_viewport] else []) ++ [Callback.resize_notify w h] ∧
    (resize initState 1920 1080).1.width = 960 ∧
    (resize initState 1920 1080).1.height = 540 ∧
    (resize initState 1920 1080).1.buffer_width = 1920 ∧
    (resize initState 1920 1080).1.buffer_height = 1080 ∧
    (resize initState 1920 1080).2 =
      [Callback.set_viewport, Callback.resize_notify 1920 1080] := by
  refine ⟨rfl, rfl, rfl, rfl, rfl, ?_, ?_, rfl, rfl, rfl⟩ <;> decide

/-- C4: a key press whose key is the escape constant requests window close
exactly once (the trace contains a single close invocation, before the key
callback), and still updates the modifier state, records the key as held,
and forwards the generic key-press callback for that key. -/
theorem c4_escape_close (st : WinState) (e : KeyEvent) (hk : e.key = ESCAPE) :
    (key_pressed_event st e).2 =
      [Callback.close_window,
       Callback.key_event e.key KeyAction.press
         ⟨e.modifiers &&& ShiftModifier, e.modifiers &&& ControlModifier⟩] ∧
    (key_pressed_event st e).2.count Callback.close_window = 1 ∧
    (key_pressed_event st e).1.modifiers =
      ⟨e.modifiers &&& ShiftModifier, e.modifiers &&& ControlModifier⟩ ∧
    (key_pressed_event st e).1.key_pressed_map e.key = true ∧
    (key_pressed_event st e).1.close_requested = true := by
  simp [key_pressed_event, close, _handle_modifiers, hk, List.count_cons]

/-- C4 witness: pressing escape with an empty modifier bitmask on a concrete
state closes once and still forwards the press callback. -/
theorem c4_escape_close_witness :
    (⟨ESCAPE, 0⟩ : KeyEvent).key = ESCAPE ∧
    (key_pressed_event initState ⟨ESCAPE, 0⟩).2 =
      [Callback.close_window,
       Callback.key_event ESCAPE KeyAction.press ⟨0, 0⟩] ∧
    (key_pressed_event initState ⟨ESCAPE, 0⟩).2.count Callback.close_window = 1 ∧
    (key_pressed_event initState ⟨ESCAPE, 0⟩).1.key_pressed_map ESCAPE = true ∧
    (key_pressed_event initState ⟨ESCAPE, 0⟩).1.close_requested = true := by
  have h := c4_escape_close initState ⟨ESCAPE, 0⟩ rfl
  exact ⟨rfl, by simpa using h.1, h.2.1, h.2.2.2.1, h.2.2.2.2⟩

/-- C5: a resize delivered while no rendering context exists skips the
viewport reapplication but still stores the new sizes and forwards the
generic resize notification; with a context, the viewport is reapplied. -/
theorem c5_resize_no_ctx (st : WinState) (w h : Nat) :
    (st.ctx = false →
      (resize st w h).2 = [Callback.resize_notify w h] ∧
      Callback.set_viewport ∉ (resize st w h).2) ∧
    (st.ctx = true →
      (resize st w h).2 = [Callback.set_viewport, Callback.resize_notify w h]) ∧
    (resize st w h).1.width = w / st.dpr ∧
    (resize st w h).1.height = h / st.dpr ∧
    (resize st w h).1.buffer_width = w ∧
    (resize st w h).1.buffer_height = h := by
  refine ⟨fun hc => ?_, fun hc => ?_, rfl, rfl, rfl, rfl⟩ <;>
    simp [resize, hc]

/-- C5 witness: on a concrete context-free state the resize trace is the
bare notification; on a state with a context the viewport event precedes
it. -/
theorem c5_resize_no_ctx_witness :
    noCtxState.ctx = false ∧
    (resize noCtxState 100 50).2 = [Callback.resize_notify 100 50] ∧
    initState.ctx = true ∧
    (resize initState 100 50).2 =
      [Callback.set_viewport, Callback.resize_notify 100 50] :=
  ⟨rfl, ((c5_resize_no_ctx noCtxState 100 50).1 rfl).1, rfl,
    (c5_resize_no_ctx initState 100 50).2.1 rfl⟩

/-- C6: every key release — with no precondition on a prior press — updates
the modifier state from the event bitmask, records the key as not held, and
invokes the generic key-event callback with the release action and the
updated modifiers. -/
theorem c6_key_release (st : WinState) (e : KeyEvent) :
    (key_release_event st e).1.modifiers =
      ⟨e.modifiers &&& ShiftModifier, e.modifiers &&& ControlModifier⟩ ∧
    (key_release_event st e).1.key_pressed_map e.key = false ∧
    (key_release_event st e).2 =
      [Callback.key_event e.key KeyAction.release
        ⟨e.modifiers &&& ShiftModifier, e.modifiers &&& ControlModifier⟩] := by
  refine ⟨rfl, ?_, rfl⟩
  simp [key_release_event, _handle_modifiers]

/-- C7: after any key press or release, the modifier holder is overwritten
from that event's bitmask alone (independent of the previous state), its
shift field is truthy exactly when bit 25 (the shift bit) is set in the
event's bitmask, and its ctrl field is truthy exactly when bit 26 (the
control bit) is set. -/
theorem c7_modifier_state (st : WinState) (e : KeyEvent) :
    (key_pressed_event st e).1.modifiers =
      ⟨e.modifiers &&& ShiftModifier, e.modifiers &&& ControlModifier⟩ ∧
    (key_release_event st e).1.modifiers =
      ⟨e.modifiers &&& ShiftModifier, e.modifiers &&& ControlModifier⟩ ∧
    ((key_pressed_event st e).1.modifiers.shift ≠ 0 ↔ e.modifiers.testBit 25) ∧
    ((key_pressed_event st e).1.modifiers.ctrl ≠ 0 ↔ e.modifiers.testBit 26) ∧
    ((key_release_event st e).1.modifiers.shift ≠ 0 ↔ e.modifiers.testBit 25) ∧
    ((key_release_event st e).1.modifiers.ctrl ≠ 0 ↔ e.modifiers.testBit 26) := by
  have h25 : ∀ m : Nat, m &&& ShiftModifier ≠ 0 ↔ m.testBit 25 := by
    intro m
    have hs : ShiftModifier = 2 ^ 25 := by decide
    rw [hs, and_mask_ne_zero_iff]
  have h26 : ∀ m : Nat, m &&& ControlModifier ≠ 0 ↔ m.testBit 26 := by
    intro m
    have hc : ControlModifier = 2 ^ 26 := by decide
    rw [hc, and_mask_ne_zero_iff]
  have hp : (key_pressed_event st e).1.modifiers =
      ⟨e.modifiers &&& ShiftModifier, e.modifiers &&& ControlModifier⟩ := by
    simp [key_pressed_event, close, _handle_modifiers]
  refine ⟨hp, rfl, ?_, ?_, ?_, ?_⟩
  · rw [hp]; exact h25 e.modifiers
  · rw [hp]; exact h26 e.modifiers
  · exact h25 e.modifiers
  · exact h26 e.modifiers

/-- C8: a toolkit-originated close request behaves identically to a
programmatic close call: the same close path runs regardless of the event
payload, with a single unconditional close invocation and no other state
change. -/
theorem c8_close_event (st : WinState) (e e' : CloseEvent) :
    close_event st e = close st ∧
    close_event st e = close_event st e' ∧
    (close_event st e).2 = [Callback.close_window] ∧
    (close_event st e).1 = { st with close_requested := true } :=
  ⟨rfl, rfl, rfl, rfl⟩

/-- C9: a mouse press or release whose native button code is unmapped
returns before any mutation: the whole state (held-button map, modifiers,
sizes, frame counter and all) is unchanged and no callback fires. -/
theorem c9_unmapped_no_mutation (st : WinState) (e : MouseEvent)
    (h : _mouse_button_map e.button = none) :
    mouse_press_event st e = (st, []) ∧
    mouse_release_event st e = (st, []) := by
  simp [mouse_press_event, mouse_release_event, h]

/-- C9 witness: button code 3 is unmapped and leaves a concrete state
untouched with an empty trace for both press and release. -/
theorem c9_unmapped_no_mutation_witness :
    _mouse_button_map 3 = none ∧
    mouse_press_event initState ⟨5, 6, 3⟩ = (initState, []) ∧
    mouse_release_event initState ⟨5, 6, 3⟩ = (initState, []) :=
  ⟨rfl, (c9_unmapped_no_mutation initState ⟨5, 6, 3⟩ rfl).1,
    (c9_unmapped_no_mutation initState ⟨5, 6, 3⟩ rfl).2⟩

/-- C10: the logical size stored on resize is the integer floor of the raw
size divided by the pixel-density ratio: logical times ratio never exceeds
the raw buffer size, equals it exactly when the ratio divides the raw
dimension, and is strictly below it otherwise. -/
theorem c10_floor_division (st : WinState) (w h : Nat) :
    (resize st w h).1.width = w / st.dpr ∧
    (resize st w h).1.buffer_width = w ∧
    (resize st w h).1.width * st.dpr ≤ (resize st w h).1.buffer_width ∧
    ((resize st w h).1.width * st.dpr = (resize st w h).1.buffer_width ↔
      st.dpr ∣ w) ∧
    (¬ st.dpr ∣ w →
      (resize st w h).1.width * st.dpr < (resize st w h).1.buffer_width) := by
  have hbw : (resize st w h).1.buffer_width = w := rfl
  have hw : (resize st w h).1.width = w / st.dpr := rfl
  rw [hbw, hw]
  have hle : w / st.dpr * st.dpr ≤ w := Nat.div_mul_le_self w st.dpr
  have hiff : w / st.dpr * st.dpr = w ↔ st.dpr ∣ w := by
    constructor
    · intro heq
      exact ⟨w / st.dpr, ((Nat.mul_comm _ _).trans heq).symm⟩
    · intro hd
      exact Nat.div_mul_cancel hd
  exact ⟨rfl, rfl, hle, hiff,
    fun hnd => lt_of_le_of_ne hle (fun heq => hnd (hiff.mp heq))⟩

/-- C10 witness: raw width 1921 with ratio 2 stores logical width 960, and
960 · 2 = 1920 is strictly below the stored buffer width 1921. -/
theorem c10_floor_division_witness :
    ¬ initState.dpr ∣ 1921 ∧
    (resize initState 1921 1080).1.width * initState.dpr
      < (resize initState 1921 1080).1.buffer_width :=
  ⟨by decide, (c10_floor_division initState 1921 1080).2.2.2.2 (by decide)⟩

end Qt5Win
